import Mathlib

/-!
Shallow embedding of the similarity-search core of `backend/app.py`
(tmRNA database website): the BLOSUM62 scoring matrix, the sequence
normalizers, the two similarity scorers, the corpus-scan / rank /
truncate pipeline of the two search endpoints, and the file-cache
decorator wrapped around them.  Python strings are modelled as
`List Char`, Python floats as `ℚ`.
-/

namespace TmrnaDB

/-- The `BLOSUM62` dict of `backend/app.py` (lines 38-81), as an
association list in the same key order. -/
def BLOSUM62 : List ((Char × Char) × Int) := [
  (('A', 'A'), 4), (('A', 'R'), -1), (('A', 'N'), -2), (('A', 'D'), -2), (('A', 'C'), 0),
  (('A', 'Q'), -1), (('A', 'E'), -1), (('A', 'G'), 0), (('A', 'H'), -2), (('A', 'I'), -1),
  (('A', 'L'), -1), (('A', 'K'), -1), (('A', 'M'), -1), (('A', 'F'), -2), (('A', 'P'), -1),
  (('A', 'S'), 1), (('A', 'T'), 0), (('A', 'W'), -3), (('A', 'Y'), -2), (('A', 'V'), 0),
  (('R', 'R'), 5), (('R', 'N'), 0), (('R', 'D'), -2), (('R', 'C'), -3), (('R', 'Q'), 1),
  (('R', 'E'), 0), (('R', 'G'), -2), (('R', 'H'), 0), (('R', 'I'), -3), (('R', 'L'), -2),
  (('R', 'K'), 2), (('R', 'M'), -1), (('R', 'F'), -3), (('R', 'P'), -2), (('R', 'S'), -1),
  (('R', 'T'), -1), (('R', 'W'), -3), (('R', 'Y'), -2), (('R', 'V'), -3), (('N', 'N'), 6),
  (('N', 'D'), 1), (('N', 'C'), -3), (('N', 'Q'), 0), (('N', 'E'), 0), (('N', 'G'), 0),
  (('N', 'H'), 1), (('N', 'I'), -3), (('N', 'L'), -3), (('N', 'K'), 0), (('N', 'M'), -2),
  (('N', 'F'), -3), (('N', 'P'), -2), (('N', 'S'), 1), (('N', 'T'), 0), (('N', 'W'), -4),
  (('N', 'Y'), -2), (('N', 'V'), -3), (('D', 'D'), 6), (('D', 'C'), -3), (('D', 'Q'), 0),
  (('D', 'E'), 2), (('D', 'G'), -1), (('D', 'H'), -1), (('D', 'I'), -3), (('D', 'L'), -4),
  (('D', 'K'), -1), (('D', 'M'), -3), (('D', 'F'), -3), (('D', 'P'), -1), (('D', 'S'), 0),
  (('D', 'T'), -1), (('D', 'W'), -4), (('D', 'Y'), -3), (('D', 'V'), -3), (('C', 'C'), 9),
  (('C', 'Q'), -3), (('C', 'E'), -4), (('C', 'G'), -3), (('C', 'H'), -3), (('C', 'I'), -1),
  (('C', 'L'), -1), (('C', 'K'), -3), (('C', 'M'), -1), (('C', 'F'), -2), (('C', 'P'), -3),
  (('C', 'S'), -1), (('C', 'T'), -1), (('C', 'W'), -2), (('C', 'Y'), -2), (('C', 'V'), -1),
  (('Q', 'Q'), 5), (('Q', 'E'), 2), (('Q', 'G'), -2), (('Q', 'H'), 0), (('Q', 'I'), -3),
  (('Q', 'L'), -2), (('Q', 'K'), 1), (('Q', 'M'), 0), (('Q', 'F'), -3), (('Q', 'P'), -1),
  (('Q', 'S'), 0), (('Q', 'T'), -1), (('Q', 'W'), -2), (('Q', 'Y'), -1), (('Q', 'V'), -2),
  (('E', 'E'), 5), (('E', 'G'), -2), (('E', 'H'), 0), (('E', 'I'), -3), (('E', 'L'), -3),
  (('E', 'K'), 1), (('E', 'M'), -2), (('E', 'F'), -3), (('E', 'P'), -1), (('E', 'S'), 0),
  (('E', 'T'), -1), (('E', 'W'), -3), (('E', 'Y'), -2), (('E', 'V'), -2), (('G', 'G'), 6),
  (('G', 'H'), -2), (('G', 'I'), -4), (('G', 'L'), -4), (('G', 'K'), -2), (('G', 'M'), -3),
  (('G', 'F'), -3), (('G', 'P'), -2), (('G', 'S'), 0), (('G', 'T'), -2), (('G', 'W'), -2),
  (('G', 'Y'), -3), (('G', 'V'), -3), (('H', 'H'), 8), (('H', 'I'), -3), (('H', 'L'), -3),
  (('H', 'K'), -1), (('H', 'M'), -2), (('H', 'F'), -1), (('H', 'P'), -2), (('H', 'S'), -1),
  (('H', 'T'), -2), (('H', 'W'), -2), (('H', 'Y'), 2), (('H', 'V'), -3), (('I', 'I'), 4),
  (('I', 'L'), 2), (('I', 'K'), -3), (('I', 'M'), 1), (('I', 'F'), 0), (('I', 'P'), -3),
  (('I', 'S'), -2), (('I', 'T'), -1), (('I', 'W'), -3), (('I', 'Y'), -1), (('I', 'V'), 3),
  (('L', 'L'), 4), (('L', 'K'), -2), (('L', 'M'), 2), (('L', 'F'), 0), (('L', 'P'), -3),
  (('L', 'S'), -2), (('L', 'T'), -1), (('L', 'W'), -2), (('L', 'Y'), -1), (('L', 'V'), 1),
  (('K', 'K'), 5), (('K', 'M'), -1), (('K', 'F'), -3), (('K', 'P'), -1), (('K', 'S'), 0),
  (('K', 'T'), -1), (('K', 'W'), -3), (('K', 'Y'), -2), (('K', 'V'), -2), (('M', 'M'), 5),
  (('M', 'F'), 0), (('M', 'P'), -2), (('M', 'S'), -1), (('M', 'T'), -1), (('M', 'W'), -1),
  (('M', 'Y'), -1), (('M', 'V'), 1), (('F', 'F'), 6), (('F', 'P'), -4), (('F', 'S'), -2),
  (('F', 'T'), -2), (('F', 'W'), 1), (('F', 'Y'), 3), (('F', 'V'), -1), (('P', 'P'), 7),
  (('P', 'S'), -1), (('P', 'T'), -1), (('P', 'W'), -4), (('P', 'Y'), -3), (('P', 'V'), -2),
  (('S', 'S'), 4), (('S', 'T'), 1), (('S', 'W'), -3), (('S', 'Y'), -2), (('S', 'V'), -2),
  (('T', 'T'), 5), (('T', 'W'), -2), (('T', 'Y'), -2), (('T', 'V'), 0), (('W', 'W'), 11),
  (('W', 'Y'), 2), (('W', 'V'), -3), (('Y', 'Y'), 7), (('Y', 'V'), -1), (('V', 'V'), 4)
]

/-- `get_blosum_score` (lines 249-257): uppercase both residues, look the
ordered pair up, then the reversed pair, defaulting to `-4`. -/
def get_blosum_score (aa1 aa2 : Char) : Int :=
  ((BLOSUM62.lookup (aa1.toUpper, aa2.toUpper)).or
    (BLOSUM62.lookup (aa2.toUpper, aa1.toUpper))).getD (-4)

/-- The twenty residues keyed by `BLOSUM62`. -/
def AApool : List Char :=
  ['A', 'R', 'N', 'D', 'C', 'Q', 'E', 'G', 'H', 'I',
   'L', 'K', 'M', 'F', 'P', 'S', 'T', 'W', 'Y', 'V']

/-- The whitespace characters removed by Python `str.strip()`
(ASCII subset; stored sequences are ASCII). -/
def pyWhitespace : List Char := [' ', '\t', '\n', '\r', '\x0b', '\x0c']

def pyIsSpace (c : Char) : Bool := pyWhitespace.contains c

/-- Python `str.strip()`: drop leading and trailing whitespace. -/
def pyStrip (l : List Char) : List Char :=
  ((l.dropWhile pyIsSpace).reverse.dropWhile pyIsSpace).reverse

/-- Python `s.replace(c, '')`: remove every occurrence of `c`. -/
def removeChar (c : Char) (l : List Char) : List Char := l.filter (fun x => x ≠ c)

/-- `clean_peptide_sequence` (lines 186-188), also inlined verbatim on the
query at line 316: remove `?`, `*`, spaces and newlines, strip, uppercase. -/
def clean_peptide_sequence (s : List Char) : List Char :=
  (pyStrip (removeChar '\n' (removeChar ' ' (removeChar '*' (removeChar '?' s))))).map Char.toUpper

/-- The inline cleaning of the stored peptide inside the scan loop
(line 345): remove `?` and `*`, strip, uppercase — it does NOT remove
interior spaces or newlines. -/
def scan_clean_peptide (s : List Char) : List Char :=
  (pyStrip (removeChar '*' (removeChar '?' s))).map Char.toUpper

/-- `clean_codon_sequence` (lines 191-193): remove `-`, spaces and
newlines, strip, lowercase. -/
def clean_codon_sequence (s : List Char) : List Char :=
  (pyStrip (removeChar '\n' (removeChar ' ' (removeChar '-' s)))).map Char.toLower

/-- The `score` accumulator of `calculate_peptide_similarity_blosum`:
`score += get_blosum_score(seq1[i], seq2[i])` over `i in range(min_len)`. -/
def blosumPairSum (seq1 seq2 : List Char) : Int :=
  (seq1.zip seq2).foldl (fun acc p => acc + get_blosum_score p.1 p.2) 0

/-- The `max_possible_score` accumulator:
`max_possible_score += get_blosum_score(seq1[i], seq1[i])` over the same range. -/
def blosumSelfSum (seq1 seq2 : List Char) : Int :=
  (seq1.zip seq2).foldl (fun acc p => acc + get_blosum_score p.1 p.1) 0

/-- `calculate_peptide_similarity_blosum` (lines 260-291). -/
def calculate_peptide_similarity_blosum (seq1 seq2 : List Char) : ℚ :=
  let min_len := min seq1.length seq2.length
  let max_len := max seq1.length seq2.length
  if min_len = 0 then 0
  else
    let score := blosumPairSum seq1 seq2
    let max_possible_score := blosumSelfSum seq1 seq2
    let length_penalty : ℚ := (min_len : ℚ) / (max_len : ℚ)
    let similarity : ℚ :=
      if 0 < max_possible_score then
        ((score : ℚ) / (max_possible_score : ℚ)) * 100 * length_penalty
      else 0
    max 0 similarity

/-- `calculate_nucleotide_similarity` (lines 402-419). -/
def calculate_nucleotide_similarity (seq1 seq2 : List Char) : ℚ :=
  let min_len := min seq1.length seq2.length
  if min_len = 0 then 0
  else
    let matchCount := (seq1.zip seq2).countP (fun p => p.1.toLower == p.2.toLower)
    ((matchCount : ℚ) / (min_len : ℚ)) * 100

/-- Python `round(x, 2)` modelled over `ℚ` as rounding to the nearest
hundredth (float bankers-rounding at exact ties is modelled as round
half up; no claim depends on tie behaviour). -/
def round2 (x : ℚ) : ℚ := ((round (x * 100) : ℤ) : ℚ) / 100

/-- The projection of a stored record the scan loops read:
`identifier`, `tag_peptide`, `codons`. -/
structure DbRow where
  identifier : String
  tag_peptide : List Char
  codons : List Char
deriving DecidableEq, Repr

/-- A `result_dict`: the matched record plus its rounded `similarity`
(`e_value` and the algorithm tag are constants and omitted). -/
structure ScanHit where
  row : DbRow
  similarity : ℚ
deriving DecidableEq, Repr

/-- The peptide scan loop of `search_peptide` (lines 340-368): clean the
stored peptide with the inline cleaner, skip it when shorter than 3,
score it, and keep it when `similarity >= threshold`. -/
def peptideHits (clean_seq : List Char) (threshold : ℚ) (rows : List DbRow) : List ScanHit :=
  rows.filterMap (fun r =>
    let db_seq := scan_clean_peptide r.tag_peptide
    if db_seq.length < 3 then none
    else
      let similarity := calculate_peptide_similarity_blosum clean_seq db_seq
      if threshold ≤ similarity then some ⟨r, round2 similarity⟩ else none)

/-- The codon scan loop of `search_codon` (lines 462-482): clean the
stored codons, score, keep when `similarity >= threshold`.  There is no
minimum-length skip in this loop. -/
def codonHits (clean_seq : List Char) (threshold : ℚ) (rows : List DbRow) : List ScanHit :=
  rows.filterMap (fun r =>
    let db_seq := clean_codon_sequence r.codons
    let similarity := calculate_nucleotide_similarity clean_seq db_seq
    if threshold ≤ similarity then some ⟨r, round2 similarity⟩ else none)

/-- Descending-similarity order used by
`results.sort(key=lambda x: x['similarity'], reverse=True)`. -/
def hitGe (a b : ScanHit) : Prop := b.similarity ≤ a.similarity

instance : DecidableRel hitGe := fun a b => inferInstanceAs (Decidable (b.similarity ≤ a.similarity))

instance : IsTotal ScanHit hitGe := ⟨fun a b => le_total b.similarity a.similarity⟩

instance : IsTrans ScanHit hitGe := ⟨fun _ _ _ h1 h2 => le_trans h2 h1⟩

/-- `results.sort(...reverse=True)` then `results[:500]` (lines 372-376
and 486-490).  Python sort is stable; a stable sort on the same key is
modelled by insertion sort. -/
def rankTruncate (hits : List ScanHit) : List ScanHit :=
  (List.insertionSort hitGe hits).take 500

/-- The scan-sort-truncate pipeline of the peptide endpoint. -/
def search_peptide_results (clean_seq : List Char) (threshold : ℚ) (rows : List DbRow) : List ScanHit :=
  rankTruncate (peptideHits clean_seq threshold rows)

/-- The scan-sort-truncate pipeline of the codon endpoint. -/
def search_codon_results (clean_seq : List Char) (threshold : ℚ) (rows : List DbRow) : List ScanHit :=
  rankTruncate (codonHits clean_seq threshold rows)

/-- A JSON atom of a request payload (request bodies here are flat
objects whose values are atoms). -/
inductive JAtom where
  | jstr (s : String)
  | jnum (q : ℚ)
  | jbool (b : Bool)
  | jnull
deriving DecidableEq, Repr

/-- Python truthiness of a JSON atom (`if not data` / `if not sequence`). -/
def jTruthy : JAtom → Bool
  | .jstr s => decide (s ≠ "")
  | .jnum q => decide (q ≠ 0)
  | .jbool b => b
  | .jnull => false

def digitsVal (l : List Char) : ℕ := l.foldl (fun a c => a * 10 + (c.toNat - 48)) 0

/-- Python `float(str)` on plain decimal literals: optional sign, digits,
optional fractional part, surrounding whitespace allowed; anything else
raises `ValueError`, modelled as `none`.  (Exponents, `inf` and `nan`
are not exercised by the endpoints and are modelled as rejected.) -/
def parseDecimalStr (s : String) : Option ℚ :=
  let l := pyStrip s.toList
  let signAndRest : ℚ × List Char :=
    match l with
    | '-' :: t => (-1, t)
    | '+' :: t => (1, t)
    | t => (1, t)
  let sign := signAndRest.1
  let l2 := signAndRest.2
  let intPart := l2.takeWhile (fun c => c ≠ '.')
  let rest := l2.dropWhile (fun c => c ≠ '.')
  if intPart.all Char.isDigit then
    match rest with
    | [] => if intPart = [] then none else some (sign * (digitsVal intPart : ℚ))
    | _ :: frac =>
      if frac.all Char.isDigit ∧ (intPart ≠ [] ∨ frac ≠ []) then
        some (sign * ((digitsVal intPart : ℚ) + (digitsVal frac : ℚ) / (10 : ℚ) ^ frac.length))
      else none
  else none

/-- Python `float(x)` on a JSON atom: numbers pass through, booleans
coerce, strings are parsed, `None` raises `TypeError` (`none`). -/
def pyFloat : JAtom → Option ℚ
  | .jnum q => some q
  | .jbool b => some (if b then 1 else 0)
  | .jstr s => parseDecimalStr s
  | .jnull => none

/-- Python `data.get(key, default)`. -/
def jsonGet (d : List (String × JAtom)) (key : String) (dflt : JAtom) : JAtom :=
  match d.lookup key with
  | some v => v
  | none => dflt

/-- The JSON body a handler replies with (search results keep only the
fields the claims mention; `e_value` and the algorithm tag are constants). -/
inductive RespBody where
  | errorMsg (msg : String)
  | searchResults (results : List ScanHit) (threshold : ℚ) (query_length : ℕ)
deriving DecidableEq, Repr

/-- What a Flask view function returns: either a bare `jsonify(...)`
`Response` (status 200), or a `(jsonify(...), code)` tuple. -/
inductive HandlerRet where
  | response (body : RespBody)
  | pair (body : RespBody) (code : ℕ)
deriving DecidableEq, Repr

/-- The body of `search_peptide` (lines 296-395), the function the cache
decorator wraps.  `request.get_json()` is modelled as `Option` of a flat
JSON object; `float()` failures and `.replace` on a non-string are the
exceptions the blanket `except` turns into a 500 tuple. -/
def search_peptide_handler (rows : List DbRow) (body : Option (List (String × JAtom))) : HandlerRet :=
  match body with
  | none => .pair (.errorMsg "No JSON data provided") 400
  | some data =>
    if data = [] then .pair (.errorMsg "No JSON data provided") 400
    else
      let sequence := jsonGet data "sequence" (.jstr "")
      match pyFloat (jsonGet data "threshold" (.jnum 50)) with
      | none => .pair (.errorMsg "could not convert threshold to float") 500
      | some threshold =>
        if ¬ jTruthy sequence then .pair (.errorMsg "Sequence is required") 400
        else
          match sequence with
          | .jstr s =>
            let clean_seq := clean_peptide_sequence s.toList
            if clean_seq.length < 3 then
              .pair (.errorMsg "Sequence too short (minimum 3 amino acids)") 400
            else
              .response (.searchResults (search_peptide_results clean_seq threshold rows)
                threshold clean_seq.length)
          | _ => .pair (.errorMsg "sequence has no attribute replace") 500

/-- Key order used by `json.dumps(..., sort_keys=True)`. -/
def keyLe (a b : String × JAtom) : Prop := a.1 ≤ b.1

/-- Strict version of `keyLe`, used to exploit key uniqueness. -/
def keyLt (a b : String × JAtom) : Prop := a.1 < b.1

instance : DecidableRel keyLe := fun a b => inferInstanceAs (Decidable (a.1 ≤ b.1))

instance : IsTotal (String × JAtom) keyLe := ⟨fun a b => le_total a.1 b.1⟩

instance : IsTrans (String × JAtom) keyLe := ⟨fun _ _ _ h1 h2 => le_trans h1 h2⟩

instance : IsAntisymm (String × JAtom) keyLt := ⟨fun _ _ h1 h2 => absurd h1 (lt_asymm h2)⟩

/-- The canonical field order `sort_keys=True` serializes. -/
def sortByKey (d : List (String × JAtom)) : List (String × JAtom) := List.insertionSort keyLe d

/-- The cache key (lines 153-155):
`md5(f"{f.__name__}:{json.dumps(request.get_json(), sort_keys=True)}")`.
The md5 of the canonical serialization is modelled as the canonical
content itself (md5 and `json.dumps` are injective in this model). -/
def cacheKey (fname : String) (body : Option (List (String × JAtom))) :
    String × Option (List (String × JAtom)) := (fname, body.map sortByKey)

/-- One cache file: its key (file name), mtime, and stored JSON. -/
structure CacheEntry where
  key : String × Option (List (String × JAtom))
  mtime : ℚ
  value : RespBody
deriving DecidableEq

/-- The cache read (lines 159-167): a hit only when the file exists and
its age is under the timeout; a stale file is left in place. -/
def cacheLookup (cache : List CacheEntry) (k : String × Option (List (String × JAtom)))
    (now timeout : ℚ) : Option RespBody :=
  match cache.find? (fun e => decide (e.key = k)) with
  | some e => if now - e.mtime < timeout then some e.value else none
  | none => none

/-- `search_peptide` as deployed: the `cache_result` wrapper (lines
145-183) around `search_peptide_handler`.  On a cache miss the wrapper
evaluates `result.status_code`; when the handler returned a
`(jsonify, code)` tuple this raises `AttributeError`, which nothing in
the wrapper catches, so Flask answers with its 500 handler (lines
519-521). -/
def cached_search_peptide (rows : List DbRow) (cache : List CacheEntry) (now : ℚ)
    (body : Option (List (String × JAtom))) : (ℕ × RespBody) × List CacheEntry :=
  let key := cacheKey "search_peptide" body
  match cacheLookup cache key now 3600 with
  | some v => ((200, v), cache)
  | none =>
    match search_peptide_handler rows body with
    | .response b => ((200, b), ⟨key, now, b⟩ :: cache)
    | .pair _ _ => ((500, .errorMsg "Internal server error"), cache)

/-! Helper lemmas. -/

theorem foldl_add_init {M : Type} [AddCommMonoid M] (g : Char × Char → M) :
    ∀ (l : List (Char × Char)) (c : M),
      l.foldl (fun acc p => acc + g p) c = c + l.foldl (fun acc p => acc + g p) 0
  | [], c => by simp
  | p :: t, c => by
    simp only [List.foldl_cons]
    rw [foldl_add_init g t (c + g p), foldl_add_init g t (0 + g p), zero_add, add_assoc]

theorem zip_foldl_eq_sum {M : Type} [AddCommMonoid M] (f : Char → Char → M) (d : Char) :
    ∀ (q s : List Char), (q.zip s).foldl (fun acc p => acc + f p.1 p.2) 0 =
      ∑ i in Finset.range (min q.length s.length), f (q.getD i d) (s.getD i d)
  | [], s => by simp
  | a :: q, [] => by simp
  | a :: q, b :: s => by
    simp only [List.zip_cons_cons, List.foldl_cons, List.length_cons, zero_add]
    rw [foldl_add_init _, Nat.succ_min_succ, Finset.sum_range_succ']
    simp only [List.getD_cons_succ, List.getD_cons_zero]
    rw [zip_foldl_eq_sum f d q s, add_comm]

theorem zip_countP_eq_sum (p : Char → Char → Bool) (d : Char) :
    ∀ (q s : List Char), ((q.zip s).countP (fun x => p x.1 x.2) : ℕ) =
      ∑ i in Finset.range (min q.length s.length),
        (if p (q.getD i d) (s.getD i d) then 1 else 0)
  | [], s => by simp
  | a :: q, [] => by simp
  | a :: q, b :: s => by
    simp only [List.zip_cons_cons, List.countP_cons, List.length_cons]
    rw [Nat.succ_min_succ, Finset.sum_range_succ']
    simp only [List.getD_cons_succ, List.getD_cons_zero]
    rw [zip_countP_eq_sum p d q s]

theorem lookup_mem : ∀ {l : List ((Char × Char) × Int)} {k : Char × Char} {v : Int},
    l.lookup k = some v → (k, v) ∈ l
  | [], k, v, h => by simp [List.lookup] at h
  | (k', v') :: t, k, v, h => by
    rw [List.lookup_cons] at h
    cases hbeq : k == k' with
    | true =>
      rw [hbeq] at h
      simp only [Option.some.injEq] at h
      subst h
      exact (eq_of_beq hbeq) ▸ List.mem_cons_self _ _
    | false =>
      rw [hbeq] at h
      exact List.mem_cons_of_mem _ (lookup_mem h)

set_option maxRecDepth 2000 in
theorem blosum_entry_bounds :
    ∀ e ∈ BLOSUM62, e.1.1 ∈ AApool ∧ e.1.2 ∈ AApool ∧
      (e.1.1 = e.1.2 → 4 ≤ e.2) ∧ (e.1.1 ≠ e.1.2 → e.2 ≤ 3) := by decide

set_option maxRecDepth 2000 in
theorem blosum_diag :
    ∀ a ∈ AApool, (BLOSUM62.lookup (a, a)).isSome ∧
      4 ≤ (BLOSUM62.lookup (a, a)).getD 0 := by decide

theorem get_blosum_score_le_self (a b : Char) :
    get_blosum_score a b ≤ get_blosum_score a a := by
  by_cases hA : a.toUpper ∈ AApool
  · obtain ⟨hsome, hge⟩ := blosum_diag a.toUpper hA
    cases hAA : BLOSUM62.lookup (a.toUpper, a.toUpper) with
    | none => rw [hAA] at hsome; simp at hsome
    | some d =>
      rw [hAA] at hge
      simp only [Option.getD_some] at hge
      have hRHS : get_blosum_score a a = d := by
        unfold get_blosum_score
        rw [hAA]
        rfl
      rw [hRHS]
      unfold get_blosum_score
      cases h1 : BLOSUM62.lookup (a.toUpper, b.toUpper) with
      | some v =>
        have hv : ((some v).or (BLOSUM62.lookup (b.toUpper, a.toUpper))).getD (-4) = v := rfl
        rw [hv]
        obtain ⟨_, _, _, hoff⟩ := blosum_entry_bounds _ (lookup_mem h1)
        by_cases hab : a.toUpper = b.toUpper
        · rw [← hab] at h1
          rw [hAA] at h1
          injection h1 with h1
          omega
        · have hv3 : v ≤ 3 := hoff hab
          omega
      | none =>
        have hor : ((Option.none).or (BLOSUM62.lookup (b.toUpper, a.toUpper))).getD (-4) =
            (BLOSUM62.lookup (b.toUpper, a.toUpper)).getD (-4) := rfl
        rw [hor]
        cases h2 : BLOSUM62.lookup (b.toUpper, a.toUpper) with
        | some v =>
          simp only [Option.getD_some]
          obtain ⟨_, _, _, hoff⟩ := blosum_entry_bounds _ (lookup_mem h2)
          by_cases hab : b.toUpper = a.toUpper
          · rw [hab] at h2
            rw [hAA] at h2
            injection h2 with h2
            omega
          · have hv3 : v ≤ 3 := hoff hab
            omega
        | none =>
          simp only [Option.getD_none]
          omega
  · have hnone : ∀ x y : Char, (x = a.toUpper ∨ y = a.toUpper) →
        BLOSUM62.lookup (x, y) = none := by
      intro x y hxy
      cases h : BLOSUM62.lookup (x, y) with
      | none => rfl
      | some v =>
        obtain ⟨h1, h2, _, _⟩ := blosum_entry_bounds _ (lookup_mem h)
        cases hxy with
        | inl hx => exact absurd (hx ▸ h1) hA
        | inr hy => exact absurd (hy ▸ h2) hA
    unfold get_blosum_score
    rw [hnone _ _ (Or.inl rfl), hnone _ _ (Or.inr rfl), hnone _ _ (Or.inl rfl)]

theorem foldl_add_le_foldl_add (f g : Char × Char → Int) (hfg : ∀ p, f p ≤ g p) :
    ∀ (l : List (Char × Char)) (a b : Int), a ≤ b →
      l.foldl (fun acc p => acc + f p) a ≤ l.foldl (fun acc p => acc + g p) b
  | [], _, _, h => h
  | p :: t, a, b, h => by
    simp only [List.foldl_cons]
    exact foldl_add_le_foldl_add f g hfg t _ _ (add_le_add h (hfg p))

theorem blosumPairSum_le_selfSum (q s : List Char) : blosumPairSum q s ≤ blosumSelfSum q s :=
  foldl_add_le_foldl_add _ _ (fun p => get_blosum_score_le_self p.1 p.2) _ 0 0 le_rfl

theorem calc_nuc_eval (q s : List Char) (m c : ℕ) (r : ℚ)
    (hm : min q.length s.length = m) (hm0 : m ≠ 0)
    (hc : (q.zip s).countP (fun p => p.1.toLower == p.2.toLower) = c)
    (hr : (c : ℚ) / (m : ℚ) * 100 = r) :
    calculate_nucleotide_similarity q s = r := by
  simp only [calculate_nucleotide_similarity, hm, hc, if_neg hm0]
  exact hr

theorem calc_pep_eval (q s : List Char) (m mx : ℕ) (sc mp : ℤ) (r : ℚ)
    (hm : min q.length s.length = m) (hm0 : m ≠ 0) (hmx : max q.length s.length = mx)
    (hsc : blosumPairSum q s = sc) (hmp : blosumSelfSum q s = mp) (hmp0 : 0 < mp)
    (hr : max 0 ((sc : ℚ) / (mp : ℚ) * 100 * ((m : ℚ) / (mx : ℚ))) = r) :
    calculate_peptide_similarity_blosum q s = r := by
  simp only [calculate_peptide_similarity_blosum, hm, hmx, hsc, hmp, if_neg hm0, if_pos hmp0]
  exact hr

theorem round2_of_mul_int (x : ℚ) (n : ℤ) (h : x * 100 = (n : ℚ)) :
    round2 x = (n : ℚ) / 100 := by
  rw [round2, h, round_intCast]

theorem zip_take_length : ∀ (q s : List Char), q.zip (s.take q.length) = q.zip s
  | [], _ => by simp
  | _ :: _, [] => by simp
  | a :: q, b :: s => by
    simp only [List.length_cons, List.take_succ_cons, List.zip_cons_cons]
    rw [zip_take_length q s]

theorem zip_self_eq : ∀ (q : List Char) (p : Char × Char), p ∈ q.zip q → p.1 = p.2
  | [], p, h => by simp at h
  | a :: q, p, h => by
    rw [List.zip_cons_cons, List.mem_cons] at h
    cases h with
    | inl h => rw [h]
    | inr h => exact zip_self_eq q p h

theorem codonHits_nil (q : List Char) (thr : ℚ) : codonHits q thr [] = [] := rfl

theorem peptideHits_nil (q : List Char) (thr : ℚ) : peptideHits q thr [] = [] := rfl

theorem codonHits_cons_of_ge (q : List Char) (thr : ℚ) (r : DbRow) (rows : List DbRow)
    (h : thr ≤ calculate_nucleotide_similarity q (clean_codon_sequence r.codons)) :
    codonHits q thr (r :: rows) =
      ⟨r, round2 (calculate_nucleotide_similarity q (clean_codon_sequence r.codons))⟩ ::
        codonHits q thr rows := by
  unfold codonHits
  have hf : (fun r' : DbRow =>
      let db_seq := clean_codon_sequence r'.codons
      let similarity := calculate_nucleotide_similarity q db_seq
      if thr ≤ similarity then some (⟨r', round2 similarity⟩ : ScanHit) else none) r =
      some ⟨r, round2 (calculate_nucleotide_similarity q (clean_codon_sequence r.codons))⟩ := by
    show (if thr ≤ calculate_nucleotide_similarity q (clean_codon_sequence r.codons) then
        some (⟨r, round2 (calculate_nucleotide_similarity q (clean_codon_sequence r.codons))⟩ :
          ScanHit) else none) =
      some ⟨r, round2 (calculate_nucleotide_similarity q (clean_codon_sequence r.codons))⟩
    rw [if_pos h]
  exact List.filterMap_cons_some hf

theorem peptideHits_cons_of_ge (q : List Char) (thr : ℚ) (r : DbRow) (rows : List DbRow)
    (hlen : ¬ (scan_clean_peptide r.tag_peptide).length < 3)
    (h : thr ≤ calculate_peptide_similarity_blosum q (scan_clean_peptide r.tag_peptide)) :
    peptideHits q thr (r :: rows) =
      ⟨r, round2 (calculate_peptide_similarity_blosum q (scan_clean_peptide r.tag_peptide))⟩ ::
        peptideHits q thr rows := by
  unfold peptideHits
  have hf : (fun r' : DbRow =>
      let db_seq := scan_clean_peptide r'.tag_peptide
      if db_seq.length < 3 then none
      else
        let similarity := calculate_peptide_similarity_blosum q db_seq
        if thr ≤ similarity then some (⟨r', round2 similarity⟩ : ScanHit) else none) r =
      some ⟨r, round2 (calculate_peptide_similarity_blosum q (scan_clean_peptide r.tag_peptide))⟩ := by
    show (if (scan_clean_peptide r.tag_peptide).length < 3 then none
      else
        if thr ≤ calculate_peptide_similarity_blosum q (scan_clean_peptide r.tag_peptide) then
          some (⟨r, round2 (calculate_peptide_similarity_blosum q
            (scan_clean_peptide r.tag_peptide))⟩ : ScanHit)
        else none) =
      some ⟨r, round2 (calculate_peptide_similarity_blosum q (scan_clean_peptide r.tag_peptide))⟩
    rw [if_neg hlen, if_pos h]
  exact List.filterMap_cons_some hf

theorem rankTruncate_singleton (h : ScanHit) : rankTruncate [h] = [h] := by
  unfold rankTruncate
  simp [List.insertionSort, List.orderedInsert]

theorem search_codon_results_example :
    search_codon_results (List.replicate 15 'a') 50 [⟨"id1", [], ['a']⟩] =
      [⟨⟨"id1", [], ['a']⟩, 100⟩] := by
  have hsim : calculate_nucleotide_similarity (List.replicate 15 'a')
      (clean_codon_sequence (['a'] : List Char)) = 100 :=
    calc_nuc_eval _ _ 1 1 100 (by decide) (by decide) (by decide) (by norm_num)
  have hr : round2 (100 : ℚ) = 100 := by
    rw [round2_of_mul_int 100 10000 (by norm_num)]
    norm_num
  unfold search_codon_results
  rw [codonHits_cons_of_ge _ _ _ _ (by rw [hsim]; norm_num)]
  rw [codonHits_nil, hsim, hr, rankTruncate_singleton]

theorem search_peptide_results_example :
    search_peptide_results ['A', 'A', 'A'] 0 [⟨"id", ['A', 'A', 'A'], []⟩] =
      [⟨⟨"id", ['A', 'A', 'A'], []⟩, 100⟩] := by
  have hsim : calculate_peptide_similarity_blosum ['A', 'A', 'A']
      (scan_clean_peptide (['A', 'A', 'A'] : List Char)) = 100 := by
    refine calc_pep_eval _ _ 3 3 12 12 100 (by decide) (by decide) (by decide)
      (by decide) (by decide) (by decide) ?_
    rw [max_eq_right]
    · norm_num
    · norm_num
  have hr : round2 (100 : ℚ) = 100 := by
    rw [round2_of_mul_int 100 10000 (by norm_num)]
    norm_num
  unfold search_peptide_results
  rw [peptideHits_cons_of_ge _ _ _ _ (by decide) (by rw [hsim]; norm_num)]
  rw [peptideHits_nil, hsim, hr, rankTruncate_singleton]

theorem rankTruncate_spec (hits : List ScanHit) :
    (rankTruncate hits).Sorted hitGe ∧ (rankTruncate hits).length ≤ 500 ∧
      ∀ x ∈ rankTruncate hits, ∀ y ∈ (List.insertionSort hitGe hits).drop 500,
        y.similarity ≤ x.similarity := by
  have hs : (List.insertionSort hitGe hits).Sorted hitGe :=
    List.sorted_insertionSort hitGe hits
  refine ⟨List.Pairwise.sublist (List.take_sublist _ _) hs, ?_, ?_⟩
  · rw [rankTruncate, List.length_take]
    omega
  · intro x hx y hy
    have hsplit : List.Pairwise hitGe
        (List.take 500 (List.insertionSort hitGe hits) ++
          List.drop 500 (List.insertionSort hitGe hits)) := by
      rw [List.take_append_drop]
      exact hs
    exact (List.pairwise_append.mp hsplit).2.2 x hx y hy

theorem sortByKey_eq_of_perm (b1 b2 : List (String × JAtom)) (hperm : b1.Perm b2)
    (hnd : (b1.map Prod.fst).Nodup) : sortByKey b1 = sortByKey b2 := by
  have hnd1 : ((sortByKey b1).map Prod.fst).Nodup :=
    (((List.perm_insertionSort keyLe b1).map Prod.fst).nodup_iff).mpr hnd
  have hnd2 : ((sortByKey b2).map Prod.fst).Nodup := by
    refine (((List.perm_insertionSort keyLe b2).map Prod.fst).nodup_iff).mpr ?_
    exact ((hperm.map Prod.fst).nodup_iff).mp hnd
  have hstrict1 : (sortByKey b1).Sorted keyLt := by
    have hle : (sortByKey b1).Sorted keyLe := List.sorted_insertionSort keyLe b1
    have hne : (sortByKey b1).Pairwise (fun a b => a.1 ≠ b.1) := List.pairwise_map.mp hnd1
    exact (hle.and hne).imp (fun hab => lt_of_le_of_ne hab.1 hab.2)
  have hstrict2 : (sortByKey b2).Sorted keyLt := by
    have hle : (sortByKey b2).Sorted keyLe := List.sorted_insertionSort keyLe b2
    have hne : (sortByKey b2).Pairwise (fun a b => a.1 ≠ b.1) := List.pairwise_map.mp hnd2
    exact (hle.and hne).imp (fun hab => lt_of_le_of_ne hab.1 hab.2)
  have hperm2 : (sortByKey b1).Perm (sortByKey b2) :=
    ((List.perm_insertionSort keyLe b1).trans hperm).trans
      (List.perm_insertionSort keyLe b2).symm
  exact List.eq_of_perm_of_sorted hperm2 hstrict1 hstrict2

/-! The claims. -/

/-- Claim C1: for every pair of normalized peptide strings, the peptide
scorer returns `max(0, (score / maxPossible) * 100 * (minLen / maxLen))`
when `maxPossible > 0` and `0` otherwise, where `score` sums the
substitution scores of `(q[i], s[i])` and `maxPossible` those of
`(q[i], q[i])` over `i in [0, minLen)`; if `minLen = 0` the result
is `0`. -/
theorem claim1_peptide_scorer_formula (q s : List Char) :
    calculate_peptide_similarity_blosum q s =
      if min q.length s.length = 0 then 0
      else if 0 < ∑ i in Finset.range (min q.length s.length),
                  get_blosum_score (q.getD i 'A') (q.getD i 'A') then
        max 0 (((∑ i in Finset.range (min q.length s.length),
                  get_blosum_score (q.getD i 'A') (s.getD i 'A') : ℤ) : ℚ) /
                ((∑ i in Finset.range (min q.length s.length),
                  get_blosum_score (q.getD i 'A') (q.getD i 'A') : ℤ) : ℚ) * 100 *
               (((min q.length s.length : ℕ) : ℚ) / ((max q.length s.length : ℕ) : ℚ)))
      else 0 := by
  have hsc : blosumPairSum q s =
      ∑ i in Finset.range (min q.length s.length),
        get_blosum_score (q.getD i 'A') (s.getD i 'A') :=
    zip_foldl_eq_sum (fun x y => get_blosum_score x y) 'A' q s
  have hmp : blosumSelfSum q s =
      ∑ i in Finset.range (min q.length s.length),
        get_blosum_score (q.getD i 'A') (q.getD i 'A') :=
    zip_foldl_eq_sum (fun x _ => get_blosum_score x x) 'A' q s
  simp only [calculate_peptide_similarity_blosum, hsc, hmp]
  split
  · rfl
  · split
    · rfl
    · simp

/-- Claim C2: the nucleotide scorer returns `(matches / minLen) * 100`
where `matches` counts the positions whose characters agree
case-insensitively, with no length penalty; two equal 15-character
strings score `100.0` and two 15-character strings differing in exactly
3 positions score `80.0`. -/
theorem claim2_nucleotide_scorer_formula :
    (∀ q s : List Char,
      calculate_nucleotide_similarity q s =
        if min q.length s.length = 0 then 0
        else (((Finset.range (min q.length s.length)).filter
            (fun i => (q.getD i 'a').toLower = (s.getD i 'a').toLower)).card : ℚ) /
          ((min q.length s.length : ℕ) : ℚ) * 100) ∧
    calculate_nucleotide_similarity (List.replicate 15 'a') (List.replicate 15 'a') = 100 ∧
    calculate_nucleotide_similarity (List.replicate 15 'a')
      (['c', 'c', 'c'] ++ List.replicate 12 'a') = 80 := by
  refine ⟨fun q s => ?_,
    calc_nuc_eval _ _ 15 15 100 (by decide) (by decide) (by decide) (by norm_num),
    calc_nuc_eval _ _ 15 12 80 (by decide) (by decide) (by decide) (by norm_num)⟩
  have hcount : (q.zip s).countP (fun p => p.1.toLower == p.2.toLower) =
      ((Finset.range (min q.length s.length)).filter
        (fun i => (q.getD i 'a').toLower = (s.getD i 'a').toLower)).card := by
    rw [zip_countP_eq_sum (fun x y => x.toLower == y.toLower) 'a' q s, Finset.card_filter]
    refine Finset.sum_congr rfl (fun i _ => ?_)
    by_cases h : (q.getD i 'a').toLower = (s.getD i 'a').toLower
    · rw [if_pos h, if_pos ?_]
      exact beq_iff_eq.mpr h
    · rw [if_neg h, if_neg ?_]
      simp only [beq_iff_eq]
      exact h
  simp only [calculate_nucleotide_similarity, hcount]

/-- Claim C3: for every pair of strings the peptide scorer stays within
`[0, 100]`, given the fixed BLOSUM62 table and the `-4` default for
pairs absent from it in both orders. -/
theorem claim3_peptide_similarity_bounds (q s : List Char) :
    0 ≤ calculate_peptide_similarity_blosum q s ∧
      calculate_peptide_similarity_blosum q s ≤ 100 := by
  simp only [calculate_peptide_similarity_blosum]
  split
  · exact ⟨le_rfl, by norm_num⟩
  · rename_i hmin
    refine ⟨le_max_left 0 _, max_le (by norm_num) ?_⟩
    split
    · rename_i hmp
      have hsc : blosumPairSum q s ≤ blosumSelfSum q s := blosumPairSum_le_selfSum q s
      have hmpQ : (0 : ℚ) < (blosumSelfSum q s : ℚ) := by exact_mod_cast hmp
      have hx : (blosumPairSum q s : ℚ) / (blosumSelfSum q s : ℚ) ≤ 1 := by
        rw [div_le_one hmpQ]
        exact_mod_cast hsc
      have hmaxpos : 0 < max q.length s.length := by
        have : 0 < min q.length s.length := Nat.pos_of_ne_zero hmin
        omega
      have hmax_posQ : (0 : ℚ) < ((max q.length s.length : ℕ) : ℚ) := by
        exact_mod_cast hmaxpos
      have hp0 : (0 : ℚ) ≤ ((min q.length s.length : ℕ) : ℚ) /
          ((max q.length s.length : ℕ) : ℚ) :=
        div_nonneg (Nat.cast_nonneg _) (Nat.cast_nonneg _)
      have hp1 : ((min q.length s.length : ℕ) : ℚ) /
          ((max q.length s.length : ℕ) : ℚ) ≤ 1 := by
        rw [div_le_one hmax_posQ]
        exact_mod_cast min_le_max
      set x := (blosumPairSum q s : ℚ) / (blosumSelfSum q s : ℚ) with hxdef
      set p := ((min q.length s.length : ℕ) : ℚ) / ((max q.length s.length : ℕ) : ℚ)
        with hpdef
      nlinarith [hx, hp0, hp1]
    · norm_num

/-- Claim C4 counterexample: a stored codon record whose normalized
sequence has length 1 (< 15) is scored and appears in the codon search
results at threshold 50, so the claim that short candidates are skipped
by both scans is false. -/
theorem claim4_counterexample_short_codon_included :
    (clean_codon_sequence (['a'] : List Char)).length < 15 ∧
    (⟨"id1", [], ['a']⟩ : DbRow) ∈
      (search_codon_results (List.replicate 15 'a') 50 [⟨"id1", [], ['a']⟩]).map
        ScanHit.row := by
  refine ⟨by decide, ?_⟩
  rw [search_codon_results_example]
  exact List.mem_cons_self _ _

/-- Claim C4, amended: only the peptide scan skips stored candidates
whose normalized sequence is shorter than its minimum (3); every hit the
peptide endpoint returns has a normalized stored peptide of length at
least 3.  The codon scan applies no minimum-length filter to stored
candidates. -/
theorem claim4_amended_peptide_short_skipped (clean_seq : List Char) (threshold : ℚ)
    (rows : List DbRow) (hit : ScanHit)
    (hmem : hit ∈ search_peptide_results clean_seq threshold rows) :
    3 ≤ (scan_clean_peptide hit.row.tag_peptide).length := by
  unfold search_peptide_results rankTruncate at hmem
  have h1 : hit ∈ List.insertionSort hitGe (peptideHits clean_seq threshold rows) :=
    List.mem_of_mem_take hmem
  have h2 : hit ∈ peptideHits clean_seq threshold rows :=
    (List.perm_insertionSort hitGe _).mem_iff.mp h1
  rw [peptideHits, List.mem_filterMap] at h2
  obtain ⟨r, _, heq⟩ := h2
  by_cases hlen : (scan_clean_peptide r.tag_peptide).length < 3
  · rw [if_pos hlen] at heq
    cases heq
  · rw [if_neg hlen] at heq
    have heq2 : (if threshold ≤ calculate_peptide_similarity_blosum clean_seq
          (scan_clean_peptide r.tag_peptide) then
        some (⟨r, round2 (calculate_peptide_similarity_blosum clean_seq
          (scan_clean_peptide r.tag_peptide))⟩ : ScanHit) else none) = some hit := heq
    split at heq2
    · cases heq2
      simp only
      omega
    · cases heq2

/-- Claim C4 witness: a stored peptide of normalized length 3 appears in
the results, and the theorem applies to it. -/
theorem claim4_amended_witness :
    3 ≤ (scan_clean_peptide ((⟨"id", ['A', 'A', 'A'], []⟩ : DbRow).tag_peptide)).length :=
  claim4_amended_peptide_short_skipped ['A', 'A', 'A'] 0 [⟨"id", ['A', 'A', 'A'], []⟩]
    ⟨⟨"id", ['A', 'A', 'A'], []⟩, 100⟩
    (by rw [search_peptide_results_example]; exact List.mem_cons_self _ _)

/-- Claim C5: the inline cleaning of stored peptides inside the scan loop
(line 345) is NOT the same function as `clean_peptide_sequence`: on the
stored peptide `"A B"` the scan keeps the interior space while
`clean_peptide_sequence` removes it.  The scan loop omits the
`replace(' ', '')` and `replace('\n', '')` steps. -/
theorem claim5_scan_cleaning_differs :
    scan_clean_peptide ['A', ' ', 'B'] = ['A', ' ', 'B'] ∧
      clean_peptide_sequence ['A', ' ', 'B'] = ['A', 'B'] := by decide

/-- Claim C6: for requests with an empty sequence, a missing body, or a
too-short sequence, the handler itself returns a `(jsonify, 400)` tuple,
but the deployed endpoint (handler wrapped by `cache_result`) evaluates
`result.status_code` on that tuple, raising `AttributeError`, so every
such request is answered with a 500 server error instead of the claimed
4xx client error. -/
theorem claim6_deployed_validation_errors_are_500 :
    (search_peptide_handler [] (some [("sequence", JAtom.jstr "")]) =
      HandlerRet.pair (RespBody.errorMsg "Sequence is required") 400 ∧
      (cached_search_peptide [] [] 0 (some [("sequence", JAtom.jstr "")])).1 =
        (500, RespBody.errorMsg "Internal server error")) ∧
    (cached_search_peptide [] [] 0 none).1 =
      (500, RespBody.errorMsg "Internal server error") ∧
    (cached_search_peptide [] [] 0 (some [("sequence", JAtom.jstr "AB")])).1 =
      (500, RespBody.errorMsg "Internal server error") := by decide

/-- Claim C7: for every query, threshold and corpus, the result list of
either search endpoint is sorted by similarity in descending order,
contains at most 500 elements, and every retained element's similarity
is at least that of every element dropped by the truncation. -/
theorem claim7_results_sorted_truncated (qp qc : List Char) (thr : ℚ) (rows : List DbRow) :
    ((search_peptide_results qp thr rows).Sorted hitGe ∧
      (search_peptide_results qp thr rows).length ≤ 500 ∧
      ∀ x ∈ search_peptide_results qp thr rows,
        ∀ y ∈ (List.insertionSort hitGe (peptideHits qp thr rows)).drop 500,
          y.similarity ≤ x.similarity) ∧
    ((search_codon_results qc thr rows).Sorted hitGe ∧
      (search_codon_results qc thr rows).length ≤ 500 ∧
      ∀ x ∈ search_codon_results qc thr rows,
        ∀ y ∈ (List.insertionSort hitGe (codonHits qc thr rows)).drop 500,
          y.similarity ≤ x.similarity) :=
  ⟨rankTruncate_spec (peptideHits qp thr rows), rankTruncate_spec (codonHits qc thr rows)⟩

/-- Claim C7 witness: the bound instantiated at a concrete query and
corpus. -/
theorem claim7_witness : (search_peptide_results ['A', 'A', 'A'] 0 []).length ≤ 500 :=
  (claim7_results_sorted_truncated ['A', 'A', 'A'] ['a'] 0 []).1.2.1

/-- Claim C8: the peptide scorer is not symmetric: `sim("W","Y") = 200/11`
but `sim("Y","W") = 200/7`, because `maxPossible` is computed from the
first argument only. -/
theorem claim8_peptide_scorer_asymmetric : ∃ q s : List Char,
    calculate_peptide_similarity_blosum q s ≠ calculate_peptide_similarity_blosum s q := by
  refine ⟨['W'], ['Y'], ?_⟩
  have h1 : calculate_peptide_similarity_blosum ['W'] ['Y'] = 200 / 11 := by
    refine calc_pep_eval _ _ 1 1 2 11 (200 / 11) (by decide) (by decide) (by decide)
      (by decide) (by decide) (by decide) ?_
    rw [max_eq_right] <;> norm_num
  have h2 : calculate_peptide_similarity_blosum ['Y'] ['W'] = 200 / 7 := by
    refine calc_pep_eval _ _ 1 1 2 7 (200 / 7) (by decide) (by decide) (by decide)
      (by decide) (by decide) (by decide) ?_
    rw [max_eq_right] <;> norm_num
  rw [h1, h2]
  norm_num

/-- Claim C9: the cache key is invariant under reordering of the JSON
object fields of the request payload: permuted bodies with distinct
field names produce the same key, because the key serializes fields in
sorted order. -/
theorem claim9_cache_key_order_invariant (fname : String) (b1 b2 : List (String × JAtom))
    (hperm : b1.Perm b2) (hnd : (b1.map Prod.fst).Nodup) :
    cacheKey fname (some b1) = cacheKey fname (some b2) := by
  simp only [cacheKey, Option.map_some', sortByKey_eq_of_perm b1 b2 hperm hnd]

/-- Claim C9 witness: two concrete two-field payloads in opposite field
order share a cache key. -/
theorem claim9_witness :
    cacheKey "search_peptide" (some [("b", JAtom.jnum 1), ("a", JAtom.jstr "x")]) =
      cacheKey "search_peptide" (some [("a", JAtom.jstr "x"), ("b", JAtom.jnum 1)]) :=
  claim9_cache_key_order_invariant "search_peptide" _ _ (List.Perm.swap _ _ _) (by decide)

/-- Claim C10: the nucleotide scorer reads only the overlap: when
`len(q) <= len(s)` its value on `(q, s)` equals its value on `q` and the
length-`len(q)` initial segment of `s`, and a nonempty query equal to
that initial segment scores exactly `100`. -/
theorem claim10_nucleotide_uses_only_overlap (q s : List Char) (h : q.length ≤ s.length) :
    calculate_nucleotide_similarity q s =
      calculate_nucleotide_similarity q (s.take q.length) ∧
    (0 < q.length → q = s.take q.length → calculate_nucleotide_similarity q s = 100) := by
  have hlen : (s.take q.length).length = q.length := by
    rw [List.length_take]
    omega
  have heq : calculate_nucleotide_similarity q s =
      calculate_nucleotide_similarity q (s.take q.length) := by
    simp only [calculate_nucleotide_similarity, zip_take_length, hlen, Nat.min_self,
      Nat.min_eq_left h]
  refine ⟨heq, fun h0 hpre => ?_⟩
  rw [heq, ← hpre]
  have hcount : (q.zip q).countP (fun p => p.1.toLower == p.2.toLower) = q.length := by
    have hall : ∀ p ∈ q.zip q, (p.1.toLower == p.2.toLower) = true := fun p hp => by
      rw [zip_self_eq q p hp]
      simp
    calc (q.zip q).countP (fun p => p.1.toLower == p.2.toLower)
        = (q.zip q).length := List.countP_eq_length.mpr hall
      _ = q.length := by rw [List.length_zip, Nat.min_self]
  have hm0 : q.length ≠ 0 := by omega
  refine calc_nuc_eval q q q.length q.length 100 (Nat.min_self _) hm0 hcount ?_
  rw [div_self (by exact_mod_cast hm0)]
  norm_num

/-- Claim C10 witness: a length-1 query equal to the first character of a
length-2 stored sequence scores 100. -/
theorem claim10_witness : calculate_nucleotide_similarity ['a'] ['a', 'c'] = 100 :=
  (claim10_nucleotide_uses_only_overlap ['a'] ['a', 'c'] (by decide)).2 (by decide) (by decide)

end TmrnaDB
